import Mathlib

/-!
Verification development for the Chat-Connect repository.

The frontend utilities (src/frontend/src/utils/urlEncryption.ts,
src/frontend/src/utils/cookies.ts) and the settings page
(handleAddMcpServer, provider detection) are embedded faithfully from the
TypeScript source, with JavaScript 32-bit integer semantics made explicit.
The backend MCP host layer (ConfirmationBroker, OAuthTokenManager,
TransportConnector/FallbackExecutor) is not present in the repository
sources; those components are modelled from the specification text.
-/

/-! ## JavaScript primitives -/

/-- JavaScript ToInt32: wrap an integer to the range [-2^31, 2^31). -/
def toInt32 (n : Int) : Int :=
  if n % 4294967296 < 2147483648 then n % 4294967296
  else n % 4294967296 - 4294967296

/-- Character code as used by `charCodeAt` (our inputs are ASCII). -/
def jsCharCode (c : Char) : Int := Int.ofNat c.toNat

/-- One step of the hash loop in `simpleHash`:
`hash = ((hash << 5) - hash) + char; hash = hash & hash`.
The shift wraps to Int32, the sum is exact, and `hash & hash` is ToInt32. -/
def simpleHashStep (h : Int) (c : Char) : Int :=
  toInt32 (toInt32 (h * 32) - h + jsCharCode c)

/-- The 32-bit accumulator value computed by `simpleHash` before
`Math.abs(hash).toString(36)`. -/
def simpleHashVal (s : String) : Int :=
  s.toList.foldl simpleHashStep 0

/-- Digit character for base 36, lowercase, as produced by `toString(36)`. -/
def base36DigitChar (n : Nat) : Char :=
  if n < 10 then Char.ofNat (48 + n) else Char.ofNat (87 + n)

/-- Fuelled base-36 digit accumulation; fuel `n` always suffices for `n`. -/
def natToBase36Go : Nat → Nat → List Char → List Char
  | 0, _, acc => acc
  | fuel + 1, n, acc =>
    if n = 0 then acc
    else natToBase36Go fuel (n / 36) (base36DigitChar (n % 36) :: acc)

/-- Rendering of a natural number in base 36, as `Number.toString(36)`. -/
def natToBase36 (n : Nat) : String :=
  if n = 0 then "0" else ⟨natToBase36Go n n []⟩

/-- The `simpleHash` function of urlEncryption.ts:
fold the step over the characters and render `Math.abs(hash)` in base 36. -/
def simpleHash (s : String) : String :=
  natToBase36 (simpleHashVal s).natAbs

/-- The `ENCRYPTION_KEY` constant of urlEncryption.ts. -/
def ENCRYPTION_KEY : String := "chatconnect_2024_secure_v2"

/-- Replacement `[^a-zA-Z0-9] -> a` applied at the end of
`generateStableId`. -/
def sanitizeAlnum (s : String) : String :=
  s.map (fun c => if c.isAlphanum then c else 'a')

/-- Fuelled embedding of the `while (encrypted.length < 16)` padding loop of
`generateStableId`; `none` means the loop did not finish within the fuel. -/
def padLoop : Nat → String → String → Option String
  | 0, _, _ => none
  | fuel + 1, encrypted, seed =>
    if encrypted.length < 16 then padLoop fuel (simpleHash (encrypted ++ seed)) seed
    else some encrypted

/-- Fuelled embedding of `generateStableId` of urlEncryption.ts. -/
def generateStableId (fuel : Nat) (chatId : String) : Option String :=
  let seed := chatId ++ "_" ++ ENCRYPTION_KEY
  let hash := simpleHash seed
  (padLoop fuel hash seed).map (fun encrypted => sanitizeAlnum (encrypted.take 16))

/-- Fuelled embedding of `encryptChatId` on a string chat id. -/
def encryptChatId (fuel : Nat) (chatId : String) : Option String :=
  generateStableId fuel chatId

/-- Fuelled embedding of `encryptChatId` on a numeric chat id
(JavaScript `toString` renders the number in decimal). -/
def encryptChatIdNat (fuel : Nat) (chatId : Nat) : Option String :=
  encryptChatId fuel (Nat.repr chatId)

/-! ## JavaScript parseInt -/

/-- Value of a digit character under a given radix, `none` if invalid. -/
def digitValue (radix : Nat) (c : Char) : Option Nat :=
  let v :=
    if 48 ≤ c.toNat ∧ c.toNat ≤ 57 then some (c.toNat - 48)
    else if 97 ≤ c.toNat ∧ c.toNat ≤ 122 then some (c.toNat - 87)
    else if 65 ≤ c.toNat ∧ c.toNat ≤ 90 then some (c.toNat - 55)
    else none
  match v with
  | some d => if d < radix then some d else none
  | none => none

/-- Accumulate leading digits; `none` when no digit was consumed (NaN). -/
def parseDigitsGo (radix : Nat) : List Char → Nat → Nat
  | [], acc => acc
  | c :: cs, acc =>
    match digitValue radix c with
    | some d => parseDigitsGo radix cs (acc * radix + d)
    | none => acc

/-- Parse the longest digit run at the head of the list; NaN is `none`. -/
def parseDigits (radix : Nat) (cs : List Char) : Option Nat :=
  match cs with
  | [] => none
  | c :: _ =>
    match digitValue radix c with
    | some _ => some (parseDigitsGo radix cs 0)
    | none => none

/-- Strip one optional sign, returning the sign factor and the rest. -/
def stripSign (cs : List Char) : Int × List Char :=
  match cs with
  | '-' :: rest => (-1, rest)
  | '+' :: rest => (1, rest)
  | _ => (1, cs)

/-- JavaScript `parseInt(s)` with no radix argument: trim leading
whitespace, optional sign, hex when the digits begin `0x`/`0X`, else
decimal; `none` models NaN. -/
def parseIntJS (s : String) : Option Int :=
  let (sign, rest) := stripSign (s.toList.dropWhile Char.isWhitespace)
  match rest with
  | '0' :: 'x' :: tail => (parseDigits 16 tail).map (fun n => sign * Int.ofNat n)
  | '0' :: 'X' :: tail => (parseDigits 16 tail).map (fun n => sign * Int.ofNat n)
  | _ => (parseDigits 10 rest).map (fun n => sign * Int.ofNat n)

/-- JavaScript `parseInt(s, 36)` as used by `decryptChatId`. -/
def parseIntRadix36 (s : String) : Option Int :=
  let (sign, rest) := stripSign (s.toList.dropWhile Char.isWhitespace)
  (parseDigits 36 rest).map (fun n => sign * Int.ofNat n)

/-- Check that a character list starts with the given needle. -/
def listStartsWith : List Char → List Char → Bool
  | _, [] => true
  | [], _ :: _ => false
  | c :: hay, d :: needle => c == d && listStartsWith hay needle

/-- Check that the needle occurs as a contiguous run inside the haystack. -/
def listContainsSeq (needle : List Char) : List Char → Bool
  | [] => needle.isEmpty
  | c :: rest => listStartsWith (c :: rest) needle || listContainsSeq needle rest

/-- JavaScript `String.prototype.startsWith`. -/
def jsStartsWith (s pfxStr : String) : Bool :=
  listStartsWith s.toList pfxStr.toList

/-- JavaScript `String.prototype.includes`: substring containment. -/
def jsIncludes (s sub : String) : Bool :=
  listContainsSeq sub.toList s.toList

/-- Fuelled brute-force loop of `decryptChatId`: try ids from
`10001 - k` up to `10000`; the outer `none` means a call to
`encryptChatId` inside the loop did not terminate. -/
def decryptBrute (fuel : Nat) (encryptedId : String) : Nat → Option (Option Nat)
  | 0 => some none
  | k + 1 =>
    match encryptChatIdNat fuel (10000 - k) with
    | none => none
    | some e =>
      if e = encryptedId then some (some (10000 - k))
      else decryptBrute fuel encryptedId k

/-- Fuelled embedding of `decryptChatId` of urlEncryption.ts: first try the
base-36 reading when it lands in (0, 1000000), verifying by re-encryption,
then fall back to brute force over ids 1..10000. The outer `none` means
some inner call to `encryptChatId` did not terminate. -/
def decryptChatId (fuel : Nat) (encryptedId : String) : Option (Option Nat) :=
  match parseIntRadix36 encryptedId with
  | some d =>
    if 0 < d ∧ d < 1000000 then
      match encryptChatIdNat fuel d.toNat with
      | none => none
      | some e =>
        if e = encryptedId then some (some d.toNat)
        else decryptBrute fuel encryptedId 10000
    else decryptBrute fuel encryptedId 10000
  | none => decryptBrute fuel encryptedId 10000

/-- Round trip `decryptChatId (encryptChatId n)` under a common fuel. -/
def roundTripChatId (fuel : Nat) (n : Nat) : Option (Option Nat) :=
  match encryptChatIdNat fuel n with
  | none => none
  | some e => decryptChatId fuel e

/-! ## Cookies and session validity (cookies.ts) -/

/-- A cookie jar: name/value pairs as held by `document.cookie`. -/
def Cookies : Type := List (String × String)

/-- The `getCookie` helper: the stored value, with an empty value collapsing
to `null` (the source ends in `|| null`). -/
def getCookie (jar : Cookies) (name : String) : Option String :=
  match jar.find? (fun p => p.1 == name) with
  | some p => if p.2 = "" then none else some p.2
  | none => none

/-- The `deleteCookie` helper: the cookie is gone afterwards. -/
def deleteCookie (jar : Cookies) (name : String) : Cookies :=
  jar.filter (fun p => p.1 != name)

/-- SESSION_DURATION_DAYS converted to milliseconds: 2 days. -/
def maxInactivityMs : Int := 2 * 24 * 60 * 60 * 1000

/-- The `getLastActivity` helper: `timestamp ? parseInt(timestamp) : 0`.
`some v` is a numeric result, `none` models NaN from `parseInt`. -/
def getLastActivity (jar : Cookies) : Option Int :=
  match getCookie jar "lastActivity" with
  | some s => parseIntJS s
  | none => some 0

/-- The `isSessionValid` helper: false when the token cookie is missing or
the activity value is falsy (NaN or 0), else `now - lastActivity < 2 days`. -/
def isSessionValid (now : Int) (jar : Cookies) : Bool :=
  match getCookie jar "token", getLastActivity jar with
  | none, _ => false
  | some _, none => false
  | some _, some la =>
    if la = 0 then false
    else decide (now - la < maxInactivityMs)

/-- The `clearSession` helper: delete the token and lastActivity cookies. -/
def clearSession (jar : Cookies) : Cookies :=
  deleteCookie (deleteCookie jar "token") "lastActivity"

/-- The `getAuthToken` helper: the returned token (if any) and the jar
after the call (cleared when the session is invalid). -/
def getAuthToken (now : Int) (jar : Cookies) : Option String × Cookies :=
  if isSessionValid now jar then (getCookie jar "token", jar)
  else (none, clearSession jar)

/-- Claim-side reading of a valid session, following the spec words: both
cookies present and the time since the lastActivity timestamp is strictly
under 2 days. -/
def specSessionValid (now : Int) (jar : Cookies) : Prop :=
  (getCookie jar "token").isSome ∧
  ∃ la v, getCookie jar "lastActivity" = some la ∧ parseIntJS la = some v ∧
    now - v < maxInactivityMs

/-- Amended claim-side reading: additionally the parsed activity timestamp
is nonzero (a zero value is falsy in the source check). -/
def specSessionValidAmended (now : Int) (jar : Cookies) : Prop :=
  (getCookie jar "token").isSome ∧
  ∃ la v, getCookie jar "lastActivity" = some la ∧ parseIntJS la = some v ∧
    v ≠ 0 ∧ now - v < maxInactivityMs

/-! ## Settings page: adding an MCP server (handleAddMcpServer) -/

/-- The `config` object sent by `handleAddMcpServer` in the create request. -/
structure McpConfig where
  type : String
  uri : String
  transport : String
deriving DecidableEq, Repr

/-- The JSON body of the create request issued by `handleAddMcpServer`. -/
structure McpCreateRequest where
  name : String
  description : String
  config : McpConfig
deriving DecidableEq, Repr

/-- The `value` fields of the MCP_SERVER_TYPES dropdown, in source order. -/
def mcpServerTypeValues : List String :=
  ["pipedream", "stdio", "sse", "websocket", "custom"]

/-- The validation error set by `handleAddMcpServer` for a bad Pipedream
URL. -/
def pipedreamUrlError : String :=
  "Invalid Pipedream URL. Must start with https://mcp.pipedream.net/"

/-- Embedding of the decision core of `handleAddMcpServer`: the Pipedream
URL validation followed by construction of the create-request body. An
`Except.error` models the early return that sets the error banner and
issues no create request. -/
def handleAddMcpServer (name description serverType url : String) :
    Except String McpCreateRequest :=
  if serverType = "pipedream" then
    if jsStartsWith url "https://mcp.pipedream.net/" then
      Except.ok
        { name := name, description := description,
          config :=
            { type := "custom", uri := url, transport := "http" } }
    else Except.error pipedreamUrlError
  else
    Except.ok
      { name := name, description := description,
        config :=
          { type := serverType, uri := url, transport := serverType } }

/-! ## Settings page: provider detection on the server list -/

/-- Embedding of the provider inference in the server list rendering:
`isPipedream = uri?.includes("pipedream.net")`, then gmail before google,
else null; a missing uri yields null through optional chaining. -/
def detectProvider (uri : Option String) : Option String :=
  match uri with
  | none => none
  | some u =>
    if jsIncludes u "pipedream.net" && jsIncludes u "gmail" then some "gmail"
    else if jsIncludes u "pipedream.net" && jsIncludes u "google" then some "google"
    else none

/-- The OAuth authorize/revoke controls are rendered exactly when a
provider was inferred (`provider && ...` in the JSX). -/
def oauthControlsOffered (uri : Option String) : Bool :=
  (detectProvider uri).isSome

/-! ## ConfirmationBroker (modelled from the spec) -/

/-- Modelled from the spec: the status field of a ConfirmationRecord. -/
inductive ConfStatus where
  | pending
  | confirmed
  | cancelled
  | expired
deriving DecidableEq, Repr

/-- Modelled from the spec: the action argument of Resolve. -/
inductive ConfAction where
  | confirm
  | cancel
deriving DecidableEq, Repr

/-- Modelled from the spec: the error kinds Resolve can fail with. -/
inductive ConfError where
  | NotFound
  | Expired
  | AlreadyResolved
deriving DecidableEq, Repr

/-- Modelled from the spec: a ConfirmationRecord of the ConfirmationBroker
(times are millisecond timestamps). -/
structure ConfirmationRecord where
  confirmationId : String
  userId : Nat
  intentKind : String
  originalMessage : String
  candidateServers : List Nat
  createdAt : Int
  expiresAt : Int
  status : ConfStatus
deriving DecidableEq, Repr

/-- Modelled from the spec: the in-memory record table of the
ConfirmationBroker, keyed by confirmation id. -/
def ConfStore : Type := String → Option ConfirmationRecord

/-- Modelled from the spec: ConfirmationBroker.Resolve. The missing backend
source decides the order of the two failure checks; the specification testable
property (a second Resolve always yields AlreadyResolved) fixes the status
check before the expiry check. Returns the result and the updated table:
NotFound on an unknown id, AlreadyResolved when the status is not pending,
Expired past expiresAt (marking the record expired as a side effect),
otherwise the status transitions per the action and the record is
returned. -/
def Resolve (store : ConfStore) (cid : String) (action : ConfAction)
    (now : Int) : Except ConfError ConfirmationRecord × ConfStore :=
  match store cid with
  | none => (Except.error ConfError.NotFound, store)
  | some r =>
    if r.status ≠ ConfStatus.pending then
      (Except.error ConfError.AlreadyResolved, store)
    else if now > r.expiresAt then
      let r' := { r with status := ConfStatus.expired }
      (Except.error ConfError.Expired,
        fun c => if c = cid then some r' else store c)
    else
      let r' :=
        { r with
          status :=
            match action with
            | ConfAction.confirm => ConfStatus.confirmed
            | ConfAction.cancel => ConfStatus.cancelled }
      (Except.ok r', fun c => if c = cid then some r' else store c)

/-! ## OAuthTokenManager (modelled from the spec) -/

/-- Modelled from the spec: an OAuthState record. -/
structure OAuthState where
  state : String
  userId : Nat
  serverId : Nat
  provider : String
  createdAt : Int
  expiresAt : Int
deriving DecidableEq, Repr

/-- Modelled from the spec: an OAuthToken record. -/
structure OAuthToken where
  userId : Nat
  serverId : Nat
  provider : String
  accessToken : String
  refreshToken : Option String
  expiresAt : Option Int
  scope : String
deriving DecidableEq, Repr

/-- Modelled from the spec: OAuth error kinds used by the claims. -/
inductive OAuthError where
  | InvalidState
  | ReauthRequired
deriving DecidableEq, Repr

/-- Modelled from the spec: the OAuthTokenManager storage, a state table
keyed by state value and a token table keyed by (userId, serverId,
provider) with upsert semantics. -/
structure OAuthStore where
  states : String → Option OAuthState
  tokens : Nat × Nat × String → Option OAuthToken

/-- Modelled from the spec: the 10-minute lifetime of an OAuthState, in
milliseconds. -/
def oauthStateLifetimeMs : Int := 10 * 60 * 1000

/-- Modelled from the spec: BeginAuthorization creates an OAuthState with
`createdAt = now` and `expiresAt = now + 10m` and returns the
provider-specific authorization URL embedding the state. -/
def BeginAuthorization (store : OAuthStore) (userId serverId : Nat)
    (provider : String) (now : Int) (newState : String) :
    (String × String) × OAuthStore :=
  let st : OAuthState :=
    { state := newState, userId := userId, serverId := serverId,
      provider := provider, createdAt := now,
      expiresAt := now + oauthStateLifetimeMs }
  let authorizeUrl := provider ++ "/authorize?state=" ++ newState
  ((authorizeUrl, newState),
    { store with
      states := fun s => if s = newState then some st else store.states s })

/-- Modelled from the spec: CompleteAuthorization looks up the OAuthState
by value, fails InvalidState if absent or expired (validation checks
`now < expiresAt`), and on success deletes the state record (single use),
exchanges the code for tokens (the provider exchange is a parameter) and
upserts the resulting OAuthToken. -/
def CompleteAuthorization (store : OAuthStore) (code state : String)
    (now : Int) (exchange : String → OAuthState → OAuthToken) :
    Except OAuthError OAuthToken × OAuthStore :=
  match store.states state with
  | none => (Except.error OAuthError.InvalidState, store)
  | some st =>
    if now < st.expiresAt then
      let tok := exchange code st
      (Except.ok tok,
        { states := fun s => if s = state then none else store.states s,
          tokens := fun k =>
            if k = (st.userId, st.serverId, st.provider) then some tok
            else store.tokens k })
    else (Except.error OAuthError.InvalidState, store)

/-- Modelled from the spec: a token has expired when its optional
`expiresAt` has passed (a token without expiry never expires). -/
def tokenExpired (tok : OAuthToken) (now : Int) : Bool :=
  match tok.expiresAt with
  | none => false
  | some e => decide (e ≤ now)

/-- Modelled from the spec: GetValidToken. If the stored token expiry is
in the future it is returned unchanged; if expired and a refresh token
exists the provider refresh call (a parameter, `none` models a failed
refresh) produces a new token that is upserted; if the refresh fails or no
refresh token exists the stored token is deleted and the call fails
ReauthRequired (also on a missing token). -/
def GetValidToken (store : OAuthStore) (userId serverId : Nat)
    (provider : String) (now : Int)
    (refreshCall : OAuthToken → Option OAuthToken) :
    Except OAuthError OAuthToken × OAuthStore :=
  match store.tokens (userId, serverId, provider) with
  | none => (Except.error OAuthError.ReauthRequired, store)
  | some tok =>
    if tokenExpired tok now = false then (Except.ok tok, store)
    else
      match tok.refreshToken with
      | some _ =>
        match refreshCall tok with
        | some newTok =>
          (Except.ok newTok,
            { store with
              tokens := fun k => if k = (userId, serverId, provider) then some newTok else store.tokens k })
        | none =>
          (Except.error OAuthError.ReauthRequired,
            { store with
              tokens := fun k => if k = (userId, serverId, provider) then none else store.tokens k })
      | none =>
        (Except.error OAuthError.ReauthRequired,
          { store with
            tokens := fun k => if k = (userId, serverId, provider) then none else store.tokens k })

/-! ## TransportConnector retry and FallbackExecutor (modelled from the spec) -/

/-- Modelled from the spec: the error kinds relevant to the retry/fallback
path; FallbackFailed carries both the original and the fallback error. -/
inductive McpError where
  | ConnectionRefused
  | Timeout
  | InvalidResponse
  | FallbackFailed (original fallbackErr : McpError)
deriving DecidableEq, Repr

/-- Modelled from the spec: transport-level errors are retried once inside
TransportConnector; a timeout goes straight to fallback (the spec lists
timeout and transport-level-after-one-retry as separate fallback
triggers). -/
def isTransportLevel : McpError → Bool
  | McpError.ConnectionRefused => true
  | McpError.InvalidResponse => true
  | McpError.Timeout => false
  | McpError.FallbackFailed _ _ => false

/-- Modelled from the spec: the outcome of the primary transport call with
its retry policy. `attempts i` is the outcome the transport produces on
the i-th attempt; the second component counts attempts actually made.
A transport-level error on the first attempt is retried exactly once and
the second outcome is surfaced; any other first outcome is surfaced
directly. -/
def transportCall (attempts : Nat → Except McpError String) :
    Except McpError String × Nat :=
  match attempts 0 with
  | Except.ok r => (Except.ok r, 1)
  | Except.error e =>
    if isTransportLevel e then (attempts 1, 2)
    else (Except.error e, 1)

deriving instance DecidableEq for Except

/-- Modelled from the spec: the observable trace of one request through the
primary path and, on failure, the FallbackExecutor. -/
structure ExecTrace where
  result : Except McpError String
  primaryAttempts : Nat
  fallbackInvoked : Bool
deriving DecidableEq, Repr

/-- Modelled from the spec: run the primary call (with its single retry),
and on any surfaced failure invoke the FallbackExecutor (its outcome is a
parameter); a fallback failure is terminal and yields FallbackFailed
carrying both errors. -/
def executeWithFallback (attempts : Nat → Except McpError String)
    (fallback : Except McpError String) : ExecTrace :=
  match transportCall attempts with
  | (Except.ok r, n) =>
    { result := Except.ok r, primaryAttempts := n, fallbackInvoked := false }
  | (Except.error e, n) =>
    match fallback with
    | Except.ok a =>
      { result := Except.ok a, primaryAttempts := n, fallbackInvoked := true }
    | Except.error fe =>
      { result := Except.error (McpError.FallbackFailed e fe),
        primaryAttempts := n, fallbackInvoked := true }

/-- Example confirmation table for the C1 witness: one pending record. -/
def confStoreEx : ConfStore := fun c =>
  if c = "c1" then
    some
      { confirmationId := "c1", userId := 7, intentKind := "email",
        originalMessage := "send an email", candidateServers := [3],
        createdAt := 0, expiresAt := 300000, status := ConfStatus.pending }
  else none

/-- Example OAuth state for the C2 witness. -/
def oauthStateEx : OAuthState :=
  { state := "st1", userId := 1, serverId := 2, provider := "google",
    createdAt := 0, expiresAt := 600000 }

/-- Example OAuth token for the C2 witness exchange. -/
def oauthTokenEx : OAuthToken :=
  { userId := 1, serverId := 2, provider := "google", accessToken := "at",
    refreshToken := none, expiresAt := some 3600000, scope := "mail" }

/-- Example OAuth store for the C2 witness: one stored state, no tokens. -/
def oauthStoreEx : OAuthStore :=
  { states := fun s => if s = "st1" then some oauthStateEx else none,
    tokens := fun _ => none }

/-- Example provider exchange call for the C2 witness. -/
def exchangeEx : String → OAuthState → OAuthToken := fun _ _ => oauthTokenEx

/-- Example stored token for the C3 witness: expires at 1000 ms. -/
def c3TokenEx : OAuthToken :=
  { userId := 1, serverId := 2, provider := "google", accessToken := "at",
    refreshToken := none, expiresAt := some 1000, scope := "mail" }

/-- Example token store for the C3 witness. -/
def c3StoreEx : OAuthStore :=
  { states := fun _ => none,
    tokens := fun k => if k = (1, 2, "google") then some c3TokenEx else none }

/-! ## Theorems -/

/-- C5: for a settings-form submission with server type pipedream, a URL
without the `https://mcp.pipedream.net/` leading part fails validation with
the Pipedream URL error and no create request is issued; with that leading
part the submission proceeds to the create request. -/
theorem c5_pipedream_url_validation (name desc url : String) :
    (jsStartsWith url "https://mcp.pipedream.net/" = false →
      handleAddMcpServer name desc "pipedream" url =
        Except.error pipedreamUrlError) ∧
    (jsStartsWith url "https://mcp.pipedream.net/" = true →
      ∃ req, handleAddMcpServer name desc "pipedream" url = Except.ok req ∧
        req.config.uri = url) := by
  constructor
  · intro h
    simp [handleAddMcpServer, h]
  · intro h
    refine ⟨{ name := name, description := desc,
              config := { type := "custom", uri := url, transport := "http" } },
      ?_, rfl⟩
    simp [handleAddMcpServer, h]

theorem c5_pipedream_url_validation_witness :
    handleAddMcpServer "srv" "d" "pipedream" "http://evil.example/" =
      Except.error pipedreamUrlError :=
  (c5_pipedream_url_validation "srv" "d" "http://evil.example/").1 (by decide)

/-- C6: every create request built by the settings form stores a config
type among custom, stdio, websocket, sse and never the literal pipedream;
the pipedream selection is rewritten to type custom with transport http and
the entered URL, and any other selection keeps type and transport equal to
the selection. -/
theorem c6_persisted_config_type (name desc t url : String)
    (req : McpCreateRequest) (ht : t ∈ mcpServerTypeValues)
    (h : handleAddMcpServer name desc t url = Except.ok req) :
    (req.config.type = "custom" ∨ req.config.type = "stdio" ∨
      req.config.type = "websocket" ∨ req.config.type = "sse") ∧
    req.config.type ≠ "pipedream" ∧
    (t = "pipedream" →
      req.config = { type := "custom", uri := url, transport := "http" }) ∧
    (t ≠ "pipedream" →
      req.config = { type := t, uri := url, transport := t }) := by
  simp only [mcpServerTypeValues, List.mem_cons, List.not_mem_nil, or_false] at ht
  rcases ht with rfl | rfl | rfl | rfl | rfl
  · cases hs : jsStartsWith url "https://mcp.pipedream.net/"
    · simp [handleAddMcpServer, hs] at h
    · simp [handleAddMcpServer, hs] at h
      subst h
      exact ⟨Or.inl rfl, by simp, fun _ => rfl, fun hne => absurd rfl hne⟩
  all_goals
    simp [handleAddMcpServer] at h
    subst h
    exact ⟨by simp, by simp, fun hpd => absurd hpd (by decide), fun _ => rfl⟩

theorem c6_persisted_config_type_witness :
    handleAddMcpServer "srv" "d" "stdio" "npx srv" =
      Except.ok
        { name := "srv", description := "d",
          config := { type := "stdio", uri := "npx srv", transport := "stdio" } } ∧
    ({ type := "stdio", uri := "npx srv", transport := "stdio" } : McpConfig).type ≠
      "pipedream" :=
  ⟨rfl,
    (c6_persisted_config_type "srv" "d" "stdio" "npx srv"
      { name := "srv", description := "d",
        config := { type := "stdio", uri := "npx srv", transport := "stdio" } }
      (by decide) rfl).2.1⟩

/-- C7: provider inference on the server list is substring matching on the
configured uri with gmail first: gmail is inferred exactly when the uri
contains both pipedream.net and gmail; google exactly when it contains
pipedream.net and google but not gmail; in every other case (including a
missing uri) no provider is inferred and no OAuth control is rendered. -/
theorem c7_provider_detection (u : String) :
    (detectProvider (some u) = some "gmail" ↔
      jsIncludes u "pipedream.net" = true ∧ jsIncludes u "gmail" = true) ∧
    (detectProvider (some u) = some "google" ↔
      jsIncludes u "pipedream.net" = true ∧ jsIncludes u "google" = true ∧
        jsIncludes u "gmail" = false) ∧
    (detectProvider (some u) = none ↔
      ¬(jsIncludes u "pipedream.net" = true ∧ jsIncludes u "gmail" = true) ∧
      ¬(jsIncludes u "pipedream.net" = true ∧ jsIncludes u "google" = true)) ∧
    (oauthControlsOffered (some u) = true ↔ detectProvider (some u) ≠ none) ∧
    detectProvider none = none ∧ oauthControlsOffered none = false := by
  cases hpd : jsIncludes u "pipedream.net" <;>
    cases hgm : jsIncludes u "gmail" <;>
      cases hgo : jsIncludes u "google" <;>
        simp [detectProvider, oauthControlsOffered, hpd, hgm, hgo]

theorem c7_provider_detection_witness :
    detectProvider (some "https://mcp.pipedream.net/w1/gmail") = some "gmail" :=
  (c7_provider_detection "https://mcp.pipedream.net/w1/gmail").1.mpr
    ⟨by decide, by decide⟩


/-- C10 counterexample: with the token cookie present and a lastActivity
cookie holding the value 0, at time 1000 ms both cookies are present and
the time since the stored activity timestamp is far under 2 days, yet
`getAuthToken` returns null and clears the cookies (the source treats the
falsy value 0 as an invalid session), refuting the claimed exact
characterization. -/
theorem c10_counterexample :
    specSessionValid 1000 [("token", "tok"), ("lastActivity", "0")] ∧
    (getAuthToken 1000 [("token", "tok"), ("lastActivity", "0")]).1 = none ∧
    getCookie
      ((getAuthToken 1000 [("token", "tok"), ("lastActivity", "0")]).2)
      "token" = none := by
  refine ⟨⟨by decide, "0", 0, by decide, by decide, by decide⟩, by decide, by decide⟩

/-- C10 amended: `getAuthToken` returns the token cookie value exactly when
the token cookie is present, the lastActivity cookie parses (JavaScript
parseInt) to a nonzero timestamp v, and now - v is strictly under 2 days;
in every other case it clears both session cookies and returns null. -/
theorem c10_getAuthToken (now : Int) (jar : Cookies) :
    (isSessionValid now jar = true →
      getAuthToken now jar = (getCookie jar "token", jar)) ∧
    (isSessionValid now jar = false →
      getAuthToken now jar = (none, clearSession jar)) ∧
    (isSessionValid now jar = true ↔ specSessionValidAmended now jar) := by
  refine ⟨fun h => by simp [getAuthToken, h], fun h => by simp [getAuthToken, h], ?_⟩
  constructor
  · intro h
    unfold isSessionValid at h
    split at h
    · simp at h
    · simp at h
    · rename_i tokv la htok hla
      by_cases h0 : la = 0
      · rw [if_pos h0] at h; simp at h
      · rw [if_neg h0] at h
        have hlt : now - la < maxInactivityMs := of_decide_eq_true h
        unfold getLastActivity at hla
        split at hla
        · rename_i s hcook
          exact ⟨by rw [htok]; rfl, s, la, hcook, hla, h0, hlt⟩
        · cases hla
          exact absurd rfl h0
  · rintro ⟨htok, s, v, hcook, hparse, hv0, hlt⟩
    unfold isSessionValid
    cases htokv : getCookie jar "token" with
    | none => rw [htokv] at htok; simp at htok
    | some tokv =>
      have hla : getLastActivity jar = some v := by
        unfold getLastActivity
        rw [hcook]
        exact hparse
      rw [hla]
      show (if v = 0 then false else decide (now - v < maxInactivityMs)) = true
      rw [if_neg hv0]
      exact decide_eq_true hlt

/-- Witness for the amended C10 theorem at a concrete valid session. -/
theorem c10_getAuthToken_witness :
    getAuthToken 500 [("token", "tok"), ("lastActivity", "100")] =
      (getCookie [("token", "tok"), ("lastActivity", "100")] "token",
        [("token", "tok"), ("lastActivity", "100")]) :=
  (c10_getAuthToken 500 [("token", "tok"), ("lastActivity", "100")]).1 (by decide)

/-- Range of the 32-bit wrap: toInt32 lands in [-2^31, 2^31). -/
theorem toInt32_bounds (n : Int) :
    -2147483648 ≤ toInt32 n ∧ toInt32 n < 2147483648 := by
  have h1 : 0 ≤ n % 4294967296 := Int.emod_nonneg n (by norm_num)
  have h2 : n % 4294967296 < 4294967296 :=
    Int.emod_lt_of_pos n (by norm_num)
  unfold toInt32
  split <;> omega

/-- The hash accumulator stays a 32-bit value along the fold. -/
theorem foldl_simpleHashStep_bounds (cs : List Char) (h : Int)
    (hh : -2147483648 ≤ h ∧ h < 2147483648) :
    -2147483648 ≤ cs.foldl simpleHashStep h ∧
      cs.foldl simpleHashStep h < 2147483648 := by
  induction cs generalizing h with
  | nil => simpa using hh
  | cons c cs ih =>
    simp only [List.foldl_cons]
    exact ih _ (toInt32_bounds _)

/-- The absolute hash value is at most 2^31. -/
theorem simpleHashVal_natAbs_le (s : String) :
    (simpleHashVal s).natAbs ≤ 2147483648 := by
  have := foldl_simpleHashStep_bounds s.toList 0 (by norm_num)
  unfold simpleHashVal
  omega

/-- Digit count bound for the fuelled base-36 accumulation. -/
theorem natToBase36Go_length (fuel : Nat) :
    ∀ (n : Nat) (acc : List Char) (k : Nat), n < 36 ^ k →
      (natToBase36Go fuel n acc).length ≤ k + acc.length := by
  induction fuel with
  | zero =>
    intro n acc k _
    simp [natToBase36Go]
  | succ fuel ih =>
    intro n acc k hk
    unfold natToBase36Go
    split
    · omega
    · rename_i hn
      have hkpos : k ≠ 0 := by
        rintro rfl
        simp at hk
        omega
      obtain ⟨k', rfl⟩ : ∃ k', k = k' + 1 := ⟨k - 1, by omega⟩
      have hdiv : n / 36 < 36 ^ k' := by
        rw [Nat.div_lt_iff_lt_mul (by norm_num)]
        calc n < 36 ^ (k' + 1) := hk
        _ = 36 ^ k' * 36 := by ring
      have := ih (n / 36) (base36DigitChar (n % 36) :: acc) k' hdiv
      simp only [List.length_cons] at this
      omega

/-- A number up to 2^31 has at most 6 base-36 digits. -/
theorem natToBase36_length_le (n : Nat) (h : n ≤ 2147483648) :
    (natToBase36 n).length ≤ 6 := by
  unfold natToBase36
  split
  · decide
  · have hlt : n < 36 ^ 6 := by norm_num; omega
    have := natToBase36Go_length n n [] 6 hlt
    simpa [String.length] using this

/-- The output of `simpleHash` is at most 6 characters, in particular
always strictly shorter than the 16 characters the padding loop waits
for. -/
theorem simpleHash_length_le (s : String) : (simpleHash s).length ≤ 6 :=
  natToBase36_length_le _ (simpleHashVal_natAbs_le s)

/-- The padding loop of `generateStableId` never exits: entered with a
candidate shorter than 16 characters, every iteration replaces it with a
`simpleHash` output of at most 6 characters. -/
theorem padLoop_eq_none (fuel : Nat) :
    ∀ (enc seed : String), enc.length < 16 → padLoop fuel enc seed = none := by
  induction fuel with
  | zero => intro enc seed _; rfl
  | succ fuel ih =>
    intro enc seed h
    unfold padLoop
    rw [if_pos h]
    exact ih _ _ (lt_of_le_of_lt (simpleHash_length_le _) (by norm_num))

/-- Helper: `generateStableId` diverges on every input and fuel. -/
theorem generateStableId_eq_none (fuel : Nat) (chatId : String) :
    generateStableId fuel chatId = none := by
  have h :=
    padLoop_eq_none fuel (simpleHash (chatId ++ "_" ++ ENCRYPTION_KEY))
      (chatId ++ "_" ++ ENCRYPTION_KEY)
      (lt_of_le_of_lt (simpleHash_length_le _) (by norm_num))
  simp [generateStableId, h]

/-- Helper: the numeric entry point diverges as well. -/
theorem encryptChatIdNat_eq_none (fuel : Nat) (n : Nat) :
    encryptChatIdNat fuel n = none :=
  generateStableId_eq_none fuel (Nat.repr n)

/-- Helper: every productive step of the brute-force loop hangs on its
first `encryptChatId` call. -/
theorem decryptBrute_eq_none (fuel : Nat) (s : String) (k : Nat) :
    decryptBrute fuel s (k + 1) = none := by
  unfold decryptBrute
  rw [encryptChatIdNat_eq_none]

/-- Helper: `decryptChatId` diverges on every input and fuel: each of its
branches evaluates `encryptChatId`, which never terminates. -/
theorem decryptChatId_eq_none (fuel : Nat) (s : String) :
    decryptChatId fuel s = none := by
  unfold decryptChatId
  have hb : decryptBrute fuel s 10000 = none := decryptBrute_eq_none fuel s 9999
  split
  · rename_i d hd
    by_cases hrange : 0 < d ∧ d < 1000000
    · rw [if_pos hrange, encryptChatIdNat_eq_none]
    · rw [if_neg hrange]
      exact hb
  · exact hb

/-- C8: refuted as a property of the code: `encryptChatId` does not
terminate for any chat id. The padding loop of `generateStableId` waits
for a 16-character candidate but every iteration replaces the whole
candidate with a fresh `simpleHash` output of at most 6 base-36
characters, so the guard stays true at every fuel. -/
theorem c8_encryptChatId_diverges (fuel : Nat) (chatId : String) :
    encryptChatId fuel chatId = none :=
  generateStableId_eq_none fuel chatId

/-- C9: refuted as a property of the code: the round trip
`decryptChatId (encryptChatId n)` cannot return n for any id in 1..10000
because `encryptChatId` never terminates, and `decryptChatId` itself never
returns an id for any input string since every branch calls
`encryptChatId`. -/
theorem c9_roundTrip_diverges :
    (∀ (fuel n : Nat), 1 ≤ n → n ≤ 10000 → roundTripChatId fuel n = none) ∧
    (∀ (fuel : Nat) (s : String), decryptChatId fuel s = none) := by
  constructor
  · intro fuel n _ _
    unfold roundTripChatId
    rw [encryptChatIdNat_eq_none]
  · exact fun fuel s => decryptChatId_eq_none fuel s

/-- Witness for the C9 divergence theorem at id 1 with fuel 100. -/
theorem c9_roundTrip_diverges_witness :
    roundTripChatId 100 1 = none :=
  c9_roundTrip_diverges.1 100 1 (by decide) (by decide)

/-- C1: a confirmation record leaves pending at most once. After a
successful Resolve(c, confirm), any further Resolve on c (confirm or
cancel, at any time) fails AlreadyResolved; Resolve on an unknown id fails
NotFound; Resolve on a still-pending record past its expiresAt fails
Expired and marks the record expired as a side effect. -/
theorem c1_confirmation_single_use (store : ConfStore) (cid : String)
    (now : Int) (r : ConfirmationRecord)
    (h : (Resolve store cid ConfAction.confirm now).1 = Except.ok r) :
    (∀ (now₂ : Int) (a : ConfAction),
      (Resolve (Resolve store cid ConfAction.confirm now).2 cid a now₂).1 =
        Except.error ConfError.AlreadyResolved) ∧
    (∀ (c : String) (a : ConfAction) (t : Int),
      store c = none →
      (Resolve store c a t).1 = Except.error ConfError.NotFound) ∧
    (∀ (c : String) (a : ConfAction) (t : Int) (rc : ConfirmationRecord),
      store c = some rc → rc.status = ConfStatus.pending → t > rc.expiresAt →
      (Resolve store c a t).1 = Except.error ConfError.Expired ∧
      (Resolve store c a t).2 c = some { rc with status := ConfStatus.expired }) := by
  refine ⟨?_, ?_, ?_⟩
  · intro now₂ a
    unfold Resolve at h
    split at h
    · simp at h
    · rename_i r₀ hs
      split at h
      · simp at h
      · rename_i hpend
        split at h
        · simp at h
        · rename_i hexp
          simp [Resolve, hs, hpend, hexp]
  · intro c a t hc
    simp [Resolve, hc]
  · intro c a t rc hc hpend hexp
    simp [Resolve, hc, hpend, hexp]

/-- Witness for C1 on the example table: the consumed record cannot be
resolved a second time. -/
theorem c1_confirmation_single_use_witness :
    (Resolve (Resolve confStoreEx "c1" ConfAction.confirm 50).2 "c1"
        ConfAction.confirm 60).1 =
      Except.error ConfError.AlreadyResolved :=
  ((c1_confirmation_single_use confStoreEx "c1" 50
    { confirmationId := "c1", userId := 7, intentKind := "email",
      originalMessage := "send an email", candidateServers := [3],
      createdAt := 0, expiresAt := 300000, status := ConfStatus.confirmed }
    (by decide)).1) 60 ConfAction.confirm

/-- C2: an OAuth state is single use. A successful CompleteAuthorization
deletes the state record, so any later call with the same state fails
InvalidState; and for a state created by BeginAuthorization at t0, any call
at or past t0 plus the 10-minute lifetime fails InvalidState as well. -/
theorem c2_oauth_state_single_use (store : OAuthStore) (code s : String)
    (now : Int) (exchange : String → OAuthState → OAuthToken)
    (tok : OAuthToken)
    (h : (CompleteAuthorization store code s now exchange).1 = Except.ok tok) :
    ((CompleteAuthorization store code s now exchange).2.states s = none) ∧
    (∀ (code₂ : String) (now₂ : Int) (ex₂ : String → OAuthState → OAuthToken),
      (CompleteAuthorization (CompleteAuthorization store code s now exchange).2
          code₂ s now₂ ex₂).1 = Except.error OAuthError.InvalidState) ∧
    (∀ (store₀ : OAuthStore) (u sv : Nat) (p ns code₃ : String) (t0 now₃ : Int)
        (ex₃ : String → OAuthState → OAuthToken),
      t0 + oauthStateLifetimeMs ≤ now₃ →
      (CompleteAuthorization (BeginAuthorization store₀ u sv p t0 ns).2 code₃ ns
          now₃ ex₃).1 = Except.error OAuthError.InvalidState) := by
  unfold CompleteAuthorization at h
  refine ⟨?_, ?_, ?_⟩
  · split at h
    · simp at h
    · rename_i st hs
      split at h
      · rename_i hnow
        simp [CompleteAuthorization, hs, hnow]
      · simp at h
  · intro code₂ now₂ ex₂
    split at h
    · simp at h
    · rename_i st hs
      split at h
      · rename_i hnow
        simp [CompleteAuthorization, hs, hnow]
      · simp at h
  · intro store₀ u sv p ns code₃ t0 now₃ ex₃ hle
    have hnot : ¬(now₃ < t0 + oauthStateLifetimeMs) := not_lt.2 hle
    simp [CompleteAuthorization, BeginAuthorization, hnot]

/-- Witness for C2 on the example store: the consumed state is rejected on
any second completion attempt. -/
theorem c2_oauth_state_single_use_witness :
    (CompleteAuthorization
        (CompleteAuthorization oauthStoreEx "code" "st1" 50 exchangeEx).2
        "code2" "st1" 60 exchangeEx).1 = Except.error OAuthError.InvalidState :=
  (c2_oauth_state_single_use oauthStoreEx "code" "st1" 50 exchangeEx
    oauthTokenEx rfl).2.1 "code2" 60 exchangeEx

/-- C3: GetValidToken never hands out an expired token. A stored token with
future expiry is returned unchanged; an expired token with a refresh token
is refreshed (given a refresh call yielding unexpired tokens) and the new
token upserted; when the refresh fails or no refresh token exists, the
stored token is deleted and the call fails ReauthRequired. -/
theorem c3_get_valid_token (store : OAuthStore) (u sv : Nat) (p : String)
    (now : Int) (refreshCall : OAuthToken → Option OAuthToken)
    (hfresh : ∀ t t', refreshCall t = some t' → tokenExpired t' now = false) :
    (∀ tok, (GetValidToken store u sv p now refreshCall).1 = Except.ok tok →
      tokenExpired tok now = false) ∧
    (∀ tok, store.tokens (u, sv, p) = some tok → tokenExpired tok now = false →
      GetValidToken store u sv p now refreshCall = (Except.ok tok, store)) ∧
    (∀ tok rt newTok, store.tokens (u, sv, p) = some tok →
      tokenExpired tok now = true → tok.refreshToken = some rt →
      refreshCall tok = some newTok →
      (GetValidToken store u sv p now refreshCall).1 = Except.ok newTok ∧
      (GetValidToken store u sv p now refreshCall).2.tokens (u, sv, p) =
        some newTok) ∧
    (∀ tok, store.tokens (u, sv, p) = some tok → tokenExpired tok now = true →
      (tok.refreshToken = none ∨ refreshCall tok = none) →
      (GetValidToken store u sv p now refreshCall).1 =
        Except.error OAuthError.ReauthRequired ∧
      (GetValidToken store u sv p now refreshCall).2.tokens (u, sv, p) = none) := by
  refine ⟨?_, ?_, ?_, ?_⟩
  · intro tok h
    unfold GetValidToken at h
    split at h
    · simp at h
    · rename_i t₀ hc
      split at h
      · rename_i hexp
        simp only [Except.ok.injEq] at h
        subst h
        assumption
      · rename_i hexp
        split at h
        · rename_i rt hrt
          split at h
          · rename_i newTok hrc
            simp only [Except.ok.injEq] at h
            subst h
            exact hfresh _ _ hrc
          · simp at h
        · simp at h
  · intro tok hc hexp
    simp [GetValidToken, hc, hexp]
  · intro tok rt newTok hc hexp hrt hrc
    simp [GetValidToken, hc, hexp, hrt, hrc]
  · intro tok hc hexp hdisj
    rcases hdisj with hrt | hrc
    · simp [GetValidToken, hc, hexp, hrt]
    · cases hrt : tok.refreshToken with
      | none => simp [GetValidToken, hc, hexp, hrt]
      | some rt => simp [GetValidToken, hc, hexp, hrt, hrc]

/-- Witness for C3 on a concrete store: an unexpired stored token is
returned unchanged. -/
theorem c3_get_valid_token_witness :
    GetValidToken c3StoreEx 1 2 "google" 0 (fun _ => none) =
      (Except.ok c3TokenEx, c3StoreEx) :=
  (c3_get_valid_token c3StoreEx 1 2 "google" 0 (fun _ => none)
    (fun _ _ hx => by simp at hx)).2.1 c3TokenEx rfl rfl

/-- C4: a primary call failing with a transport-level error is retried
exactly once, with the second outcome surfaced; a success or a timeout is
not retried; after the single retry fails, or on a timeout, the fallback
runs; and a fallback failure yields FallbackFailed carrying both the
original and the fallback error. -/
theorem c4_retry_and_fallback (attempts : Nat → Except McpError String)
    (fallback : Except McpError String) :
    (∀ r, attempts 0 = Except.ok r → transportCall attempts = (Except.ok r, 1)) ∧
    (∀ e, attempts 0 = Except.error e → isTransportLevel e = true →
      transportCall attempts = (attempts 1, 2)) ∧
    (attempts 0 = Except.error McpError.Timeout →
      transportCall attempts = (Except.error McpError.Timeout, 1) ∧
      (executeWithFallback attempts fallback).fallbackInvoked = true) ∧
    (∀ e e₂, attempts 0 = Except.error e → isTransportLevel e = true →
      attempts 1 = Except.error e₂ →
      (executeWithFallback attempts fallback).fallbackInvoked = true) ∧
    (∀ e₁ fe, (transportCall attempts).1 = Except.error e₁ →
      fallback = Except.error fe →
      (executeWithFallback attempts fallback).result =
        Except.error (McpError.FallbackFailed e₁ fe)) := by
  refine ⟨?_, ?_, ?_, ?_, ?_⟩
  · intro r h
    simp [transportCall, h]
  · intro e h htl
    simp [transportCall, h, htl]
  · intro h
    refine ⟨by simp [transportCall, h, isTransportLevel], ?_⟩
    cases hf : fallback <;>
      simp [executeWithFallback, transportCall, h, isTransportLevel, hf]
  · intro e e₂ h htl h2
    cases hf : fallback <;>
      simp [executeWithFallback, transportCall, h, htl, h2, hf]
  · intro e₁ fe htc hf
    rcases htp : transportCall attempts with ⟨res, n⟩
    rw [htp] at htc
    simp only at htc
    subst htc
    simp [executeWithFallback, htp, hf]

/-- Witness for C4: with every primary attempt refused and a failing
fallback, the request surfaces FallbackFailed with both errors. -/
theorem c4_retry_and_fallback_witness :
    (executeWithFallback (fun _ => Except.error McpError.ConnectionRefused)
        (Except.error McpError.InvalidResponse)).result =
      Except.error
        (McpError.FallbackFailed McpError.ConnectionRefused
          McpError.InvalidResponse) :=
  (c4_retry_and_fallback (fun _ => Except.error McpError.ConnectionRefused)
    (Except.error McpError.InvalidResponse)).2.2.2.2
    McpError.ConnectionRefused McpError.InvalidResponse rfl rfl
